import Mathlib

/-!
Verification of the navigator WebDriver client library: a shallow embedding of
its selector algebra, selection-resolution engine, protocol-client error
decoding, session bootstrap, numeric rounding, and driver-process supervisor,
with theorems settling the specification claims about each.
-/

/-! ## Selector algebra (selector.go / selectors.go) -/

/-- The closed set of selector kinds (Go `selectorType` constants). -/
inductive selectorType where
  | cssType
  | xPathType
  | linkType
  | labelType
  | buttonType
  | nameType
  | accessibilityIDType
  | androidAutType
  | iosAutType
  | classType
  | idType
deriving DecidableEq, Repr

/-- Wire-protocol selector (Go `session.Selector`): the `using` strategy and
the query `value`. -/
structure SessionSelector where
  Using : String
  Value : String
deriving DecidableEq, Repr

/-- One find-strategy descriptor (Go `selector` struct). `Index` is a Go `int`,
so it is modelled as an integer and may be negative. -/
structure selector where
  Ty : selectorType  -- Go field `Type` (a Lean keyword)
  Value : String
  Index : Int
  Indexed : Bool
  Single : Bool
deriving DecidableEq, Repr

/-- Kind-to-protocol-strategy mapping (Go `selector.selectorType()`):
the switch over kinds, with `xpath` as the default arm. -/
def selector.selectorStrategy (s : selector) : String :=
  match s.Ty with
  | .cssType => "css selector"
  | .classType => "class name"
  | .idType => "id"
  | .linkType => "link text"
  | .nameType => "name"
  | .accessibilityIDType => "accessibility id"
  | .androidAutType => "-android uiautomator"
  | .iosAutType => "-ios uiautomation"
  | _ => "xpath"

/-- Go `labelXPath` template applied to a label text (fmt.Sprintf with
`%s` and `%[1]s` both standing for the text). -/
def labelXPath (t : String) : String :=
  "//input[@id=(//label[normalize-space()=\"" ++ t ++ "\"]/@for)] | //label[normalize-space()=\"" ++ t ++ "\"]/input"

/-- Go `buttonXPath` template applied to a button text. -/
def buttonXPath (t : String) : String :=
  "//input[@type=\"submit\" or @type=\"button\"][normalize-space(@value)=\"" ++ t ++ "\"] | //button[normalize-space()=\"" ++ t ++ "\"]"

/-- Go `selector.value()`: label and button kinds synthesize XPath queries,
every other kind passes its value through verbatim. -/
def selector.queryValue (s : selector) : String :=
  match s.Ty with
  | .labelType => labelXPath s.Value
  | .buttonType => buttonXPath s.Value
  | _ => s.Value

/-- Go `selector.SessionSelector()`: the wire selector sent to the driver. -/
def selector.SessionSelector (s : selector) : SessionSelector :=
  { Using := s.selectorStrategy, Value := s.queryValue }

/-- A selector chain (Go `selectors`, a slice of `selector`). -/
abbrev selectors := List selector

/-- Go `selectors.canMergeType`: a new selector may merge into the chain iff
the chain is non-empty, both the new kind and the last selector's kind are
CSS, and the last selector is neither indexed nor single. -/
def selectors.canMergeType (ss : selectors) (t : selectorType) : Bool :=
  match ss.getLast? with
  | none => false
  | some last =>
    (t = selectorType.cssType && last.Ty = selectorType.cssType)
      && (!last.Indexed && !last.Single)

/-- Go `selectors.Append`: clone the chain and append the new selector, or,
when `canMergeType` holds, replace the last selector by one whose value is the
old value, a single space, and the new value. -/
def selectors.Append (ss : selectors) (t : selectorType) (v : String) : selectors :=
  if ss.canMergeType t then
    match ss.getLast? with
    | some last => ss.dropLast ++ [{ Ty := t, Value := last.Value ++ " " ++ v, Index := 0, Indexed := false, Single := false }]
    | none => ss ++ [{ Ty := t, Value := v, Index := 0, Indexed := false, Single := false }]
  else
    ss ++ [{ Ty := t, Value := v, Index := 0, Indexed := false, Single := false }]

/-- Go `selectors.Single`: mark the last selector single (and not indexed);
on an empty chain the result is nil. -/
def selectors.Single (ss : selectors) : selectors :=
  match ss.getLast? with
  | none => []
  | some last => ss.dropLast ++ [{ last with Single := true, Indexed := false }]

/-- Go `selectors.At`: mark the last selector indexed at `index` (and not
single); on an empty chain the result is nil. -/
def selectors.At (ss : selectors) (index : Int) : selectors :=
  match ss.getLast? with
  | none => []
  | some last => ss.dropLast ++ [{ last with Single := false, Indexed := true, Index := index }]

/-! ## Selection resolution engine (selectable.go)

A resolution runs against a remote page, modelled as an oracle `World`
answering the two wire find endpoints.  A find is either session-global
(`POST /session/{id}/elements`, scope `none`) or element-relative
(`POST /session/{id}/element/{eid}/elements`, scope `some eid`), matching
`Session.Send` and `Element.Send` path construction.  Elements are identified
by their remote IDs.  Each remote call made during resolution is recorded. -/

/-- The remote page: `findAll` answers the many-element find endpoint,
`findOne` the single-element one, for a given scope and wire selector. -/
structure World where
  findAll : Option String → SessionSelector → Except String (List String)
  findOne : Option String → SessionSelector → Except String String

/-- A record of one remote find issued during resolution: the scope it was
sent under (`none` = session-global), the wire selector, and whether the
single-result endpoint (`/element`) was used rather than `/elements`. -/
structure RemoteCall where
  scope : Option String
  sel : SessionSelector
  single : Bool
deriving DecidableEq, Repr

/-- Go `retrieveElements(client *session.Session, selector)`: one fan-out step
for one selector.  The `client` is a `session.Session`, whose `GetElements` /
`GetElement` send session-scoped requests (session.go), so every find this
function issues carries scope `none`.  Returns the step result together with
the single remote call it makes. -/
def retrieveElements (w : World) (sel : selector) :
    Except String (List String) × RemoteCall :=
  if sel.Single then
    ((match w.findAll none sel.SessionSelector with
      | .error e => .error e
      | .ok elements =>
        if elements.length = 0 then .error ("element not found")
        else if 1 < elements.length then .error ("ambiguous find")
        else .ok [elements.headD ""]),
     { scope := none, sel := sel.SessionSelector, single := false })
  else if sel.Indexed = true ∧ 0 < sel.Index then
    ((match w.findAll none sel.SessionSelector with
      | .error e => .error e
      | .ok elements =>
        if (elements.length : Int) ≤ sel.Index then .error ("element index out of range")
        else .ok [elements.getD sel.Index.toNat ""]),
     { scope := none, sel := sel.SessionSelector, single := false })
  else if sel.Indexed = true ∧ sel.Index = 0 then
    ((match w.findOne none sel.SessionSelector with
      | .error e => .error e
      | .ok element => .ok [element]),
     { scope := none, sel := sel.SessionSelector, single := true })
  else
    (w.findAll none sel.SessionSelector,
     { scope := none, sel := sel.SessionSelector, single := false })

/-- The inner loop of `Selectable.getElements`: for one selector, iterate over
the current working set, issue one find per current element (via
`retrieveElements`, which receives `element.Session`, i.e. the session), and
append the children; the first error aborts.  Also returns the calls made. -/
def fanOut (w : World) (sel : selector) :
    List String → Except String (List String) × List RemoteCall
  | [] => (.ok [], [])
  | _ :: es =>
    let step := retrieveElements w sel
    match step.1 with
    | .error e => (.error e, [step.2])
    | .ok sub =>
      match fanOut w sel es with
      | (.ok rest, cs) => (.ok (sub ++ rest), step.2 :: cs)
      | (.error e, cs) => (.error e, step.2 :: cs)

/-- The outer loop of `Selectable.getElements` over the tail of the chain:
each selector's fan-out result becomes the next working set. -/
def chainRest (w : World) :
    List selector → List String → Except String (List String) × List RemoteCall
  | [], last => (.ok last, [])
  | sel :: more, last =>
    match fanOut w sel last with
    | (.error e, cs) => (.error e, cs)
    | (.ok next, cs) =>
      match chainRest w more next with
      | (r, cs2) => (r, cs ++ cs2)

/-- Go `Selectable.getElements`: an empty chain is an error; otherwise resolve
the first selector against the session, then fan out selector by selector. -/
def getElements (w : World) (ss : selectors) :
    Except String (List String) × List RemoteCall :=
  match ss with
  | [] => (.error ("empty selection"), [])
  | s0 :: rest =>
    let step := retrieveElements w s0
    match step.1 with
    | .error e => (.error e, [step.2])
    | .ok first =>
      match chainRest w rest first with
      | (r, cs) => (r, step.2 :: cs)

/-- Modelled from the spec (section 4.2), for comparison with `getElements`:
one fan-out step whose find is issued under an explicit scope — the spec says
the find for a current element is "an element-relative find scoped under that
element's remote ID".  Same cardinality policy as `retrieveElements`. -/
def retrieveElementsScoped (w : World) (scope : Option String) (sel : selector) :
    Except String (List String) :=
  if sel.Single then
    match w.findAll scope sel.SessionSelector with
    | .error e => .error e
    | .ok elements =>
      if elements.length = 0 then .error ("element not found")
      else if 1 < elements.length then .error ("ambiguous find")
      else .ok [elements.headD ""]
  else if sel.Indexed = true ∧ 0 < sel.Index then
    match w.findAll scope sel.SessionSelector with
    | .error e => .error e
    | .ok elements =>
      if (elements.length : Int) ≤ sel.Index then .error ("element index out of range")
      else .ok [elements.getD sel.Index.toNat ""]
  else if sel.Indexed = true ∧ sel.Index = 0 then
    match w.findOne scope sel.SessionSelector with
    | .error e => .error e
    | .ok element => .ok [element]
  else
    w.findAll scope sel.SessionSelector

/-- Modelled from the spec (section 4.2): the fan-out over one working set
with each find scoped under the current element's remote ID. -/
def fanOutScoped (w : World) (sel : selector) :
    List String → Except String (List String)
  | [] => .ok []
  | e :: es =>
    match retrieveElementsScoped w (some e) sel with
    | .error err => .error err
    | .ok sub =>
      match fanOutScoped w sel es with
      | .error err => .error err
      | .ok rest => .ok (sub ++ rest)

/-- Helper for `getElementsSpec`: the chain tail with spec-described scoping. -/
def chainRestSpec (w : World) :
    List selector → List String → Except String (List String)
  | [], last => .ok last
  | sel :: more, last =>
    match fanOutScoped w sel last with
    | .error e => .error e
    | .ok next => chainRestSpec w more next

/-- Modelled from the spec (section 4.2): the whole resolution with
element-relative chained finds (the first selector runs at the session-bound
virtual root, later ones under each current element's ID). -/
def getElementsSpec (w : World) : selectors → Except String (List String)
  | [] => .error ("empty selection")
  | s0 :: rest =>
    match retrieveElementsScoped w none s0 with
    | .error e => .error e
    | .ok first => chainRestSpec w rest first

/-! ## Numeric conversion (session/element.go)

Go's `round(number float64) int` is `int(number + 0.5)`: float addition of
one half followed by Go's float-to-int conversion, which discards the
fractional part (truncation toward zero).  Coordinates are modelled as
rationals; the inputs used below are exactly representable dyadic values on
which the float arithmetic is exact. -/

/-- Go's float-to-int conversion: truncation toward zero. -/
def goTrunc (q : ℚ) : ℤ :=
  if 0 ≤ q then ⌊q⌋ else ⌈q⌉

/-- Go `round` in session/element.go: `int(number + 0.5)`. -/
def goRound (number : ℚ) : ℤ :=
  goTrunc (number + 1/2)

/-- Go `Element.GetLocationWithContext`: the protocol's float x/y pair is
returned as `(goRound x, goRound y)`. -/
def GetLocation (x y : ℚ) : ℤ × ℤ :=
  (goRound x, goRound y)

/-- Go `Element.GetSizeWithContext`: the protocol's float width/height pair is
returned as `(goRound width, goRound height)`. -/
def GetSize (width height : ℚ) : ℤ × ℤ :=
  (goRound width, goRound height)

/-! ## JSON (session/connection.go)

The protocol client parses response bodies with `encoding/json`.  The value
model and a small executable parser stand in for the standard library; the
decode helpers below reproduce `json.Unmarshal`'s behaviour for the concrete
target structs the client uses (case-insensitive field matching, unknown keys
ignored, `null` a no-op, type mismatch an error, whole input one value). -/

/-- A JSON value.  Numeric lexemes are kept as text: the client never decodes
a number through the code paths modelled here. -/
inductive Json where
  | null
  | bool (b : Bool)
  | num (lexeme : String)
  | str (s : String)
  | arr (elements : List Json)
  | obj (fields : List (String × Json))
deriving Repr

def quoteChar : Char := Char.ofNat 34

def backslashChar : Char := Char.ofNat 92

def lbraceChar : Char := Char.ofNat 123

def rbraceChar : Char := Char.ofNat 125

def isJsonWs (c : Char) : Bool :=
  c = ' ' || c = Char.ofNat 9 || c = Char.ofNat 10 || c = Char.ofNat 13

def skipWs : List Char → List Char
  | [] => []
  | c :: cs => if isJsonWs c then skipWs cs else c :: cs

/-- Decode one string escape character (the `\u` form is not needed by any
input in this development and is rejected). -/
def escChar (c : Char) : Option Char :=
  if c = quoteChar then some quoteChar
  else if c = backslashChar then some backslashChar
  else if c = '/' then some '/'
  else if c = 'n' then some (Char.ofNat 10)
  else if c = 't' then some (Char.ofNat 9)
  else if c = 'r' then some (Char.ofNat 13)
  else if c = 'b' then some (Char.ofNat 8)
  else if c = 'f' then some (Char.ofNat 12)
  else none

/-- Parse the body of a JSON string after its opening quote; returns the
decoded string and the input remaining after the closing quote. -/
def parseStringBody : List Char → Option (String × List Char)
  | [] => none
  | c :: cs =>
    if c = quoteChar then some ("", cs)
    else if c = backslashChar then
      match cs with
      | [] => none
      | e :: cs2 =>
        match escChar e with
        | none => none
        | some ec =>
          match parseStringBody cs2 with
          | none => none
          | some (s, rest) => some (String.mk (ec :: s.data), rest)
    else
      match parseStringBody cs with
      | none => none
      | some (s, rest) => some (String.mk (c :: s.data), rest)

def isNumChar (c : Char) : Bool :=
  c.isDigit || c = '-' || c = '+' || c = '.' || c = 'e' || c = 'E'

def spanNum : List Char → List Char × List Char
  | [] => ([], [])
  | c :: cs =>
    if isNumChar c then
      match spanNum cs with
      | (tk, rest) => (c :: tk, rest)
    else ([], c :: cs)

/-- Parse a literal (`true`, `false`, `null`) or a numeric lexeme. -/
def parseLit (input : List Char) : Option (Json × List Char) :=
  match input with
  | 't' :: 'r' :: 'u' :: 'e' :: rest => some (Json.bool true, rest)
  | 'f' :: 'a' :: 'l' :: 's' :: 'e' :: rest => some (Json.bool false, rest)
  | 'n' :: 'u' :: 'l' :: 'l' :: rest => some (Json.null, rest)
  | other =>
    match spanNum other with
    | (tk, rest) =>
      match tk with
      | [] => none
      | c :: _ =>
        if (c.isDigit || c = '-') && tk.any Char.isDigit then
          some (Json.num (String.mk tk), rest)
        else none

mutual

/-- Fuel-bounded JSON value parser over a character list. -/
def parseVal : Nat → List Char → Option (Json × List Char)
  | 0, _ => none
  | fuel + 1, input =>
    match skipWs input with
    | [] => none
    | c :: cs =>
      if c = quoteChar then
        match parseStringBody cs with
        | none => none
        | some (s, rest) => some (Json.str s, rest)
      else if c = lbraceChar then
        match parseObjFields fuel cs with
        | none => none
        | some (fs, rest) => some (Json.obj fs, rest)
      else if c = '[' then
        match parseArrElems fuel cs with
        | none => none
        | some (vs, rest) => some (Json.arr vs, rest)
      else parseLit (c :: cs)

/-- Array elements after the opening bracket. -/
def parseArrElems : Nat → List Char → Option (List Json × List Char)
  | 0, _ => none
  | fuel + 1, input =>
    match skipWs input with
    | [] => none
    | c :: cs =>
      if c = ']' then some ([], cs)
      else
        match parseVal fuel (c :: cs) with
        | none => none
        | some (v, rest) =>
          match parseMoreArr fuel rest with
          | none => none
          | some (vs, rest2) => some (v :: vs, rest2)

/-- After an array element: either the closing bracket or a comma. -/
def parseMoreArr : Nat → List Char → Option (List Json × List Char)
  | 0, _ => none
  | fuel + 1, input =>
    match skipWs input with
    | [] => none
    | c :: cs =>
      if c = ']' then some ([], cs)
      else if c = ',' then
        match parseVal fuel cs with
        | none => none
        | some (v, rest) =>
          match parseMoreArr fuel rest with
          | none => none
          | some (vs, rest2) => some (v :: vs, rest2)
      else none

/-- One `"key": value` object member. -/
def parseMember : Nat → List Char → Option ((String × Json) × List Char)
  | 0, _ => none
  | fuel + 1, input =>
    match skipWs input with
    | [] => none
    | c :: cs =>
      if c = quoteChar then
        match parseStringBody cs with
        | none => none
        | some (k, rest) =>
          match skipWs rest with
          | [] => none
          | d :: ds =>
            if d = ':' then
              match parseVal fuel ds with
              | none => none
              | some (v, rest2) => some ((k, v), rest2)
            else none
      else none

/-- Object members after the opening brace. -/
def parseObjFields : Nat → List Char → Option (List (String × Json) × List Char)
  | 0, _ => none
  | fuel + 1, input =>
    match skipWs input with
    | [] => none
    | c :: cs =>
      if c = rbraceChar then some ([], cs)
      else
        match parseMember fuel (c :: cs) with
        | none => none
        | some (kv, rest) =>
          match parseMoreObj fuel rest with
          | none => none
          | some (fs, rest2) => some (kv :: fs, rest2)

/-- After an object member: either the closing brace or a comma. -/
def parseMoreObj : Nat → List Char → Option (List (String × Json) × List Char)
  | 0, _ => none
  | fuel + 1, input =>
    match skipWs input with
    | [] => none
    | c :: cs =>
      if c = rbraceChar then some ([], cs)
      else if c = ',' then
        match parseMember fuel cs with
        | none => none
        | some (kv, rest) =>
          match parseMoreObj fuel rest with
          | none => none
          | some (fs, rest2) => some (kv :: fs, rest2)
      else none

end

/-- Parse a whole string as exactly one JSON value (`json.Unmarshal` rejects
trailing data).  The fuel bound exceeds any possible nesting of the input. -/
def jsonParse (s : String) : Option Json :=
  match parseVal (s.data.length * 3 + 8) s.data with
  | none => none
  | some (v, rest) =>
    match skipWs rest with
    | [] => some v
    | _ => none

/-- ASCII lower-casing of one character (struct field names and the JSON keys
the client meets are ASCII). -/
def lowerAscii (c : Char) : Char :=
  if 'A' ≤ c ∧ c ≤ 'Z' then Char.ofNat (c.toNat + 32) else c

/-- Case-insensitive key match, as `json.Unmarshal` matches object keys to
struct field names. -/
def keyMatches (key field : String) : Bool :=
  key.data.map lowerAscii = field.data.map lowerAscii

/-- `json.Unmarshal` of a JSON value into a struct with a single string field
named `field`: `null` is a no-op, an object sets the field from any matching
key (later duplicates win, string or `null` values only), any other shape is
an error.  Returns `none` on error, otherwise the field's final value. -/
def goUnmarshalStringField (field : String) : Json → Option String
  | Json.null => some ""
  | Json.obj fields =>
    fields.foldl
      (fun acc kv =>
        match acc with
        | none => none
        | some cur =>
          if keyMatches kv.1 field then
            match kv.2 with
            | Json.str s => some s
            | Json.null => some cur
            | _ => none
          else some cur)
      (some "")
  | _ => none

/-- `json.Unmarshal` into Go `struct{ Value struct{ Message string } }` (the
error-body struct of `toResponseError`): returns the inner message. -/
def goUnmarshalValueMessage : Json → Option String
  | Json.null => some ""
  | Json.obj fields =>
    fields.foldl
      (fun acc kv =>
        match acc with
        | none => none
        | some cur =>
          if keyMatches kv.1 ("Value") then
            match goUnmarshalStringField ("Message") kv.2 with
            | none => none
            | some s => some s
          else some cur)
      (some "")
  | _ => none

/-- Stage one of the non-2xx unwrap: parse the body and extract
`value.message`. -/
def unwrapStage1 (body : String) : Option String :=
  match jsonParse body with
  | none => none
  | some j => goUnmarshalValueMessage j

/-- Stage two of the non-2xx unwrap: parse the inner message as JSON and
extract `errorMessage`. -/
def unwrapStage2 (msg : String) : Option String :=
  match jsonParse msg with
  | none => none
  | some j => goUnmarshalStringField ("ErrorMessage") j

/-- Go `toResponseError` (session/connection.go): unmarshal the body into
`struct{ Value struct{ Message string } }`; on failure the error carries the
raw body.  Then unmarshal the inner message into
`struct{ ErrorMessage string }`; on failure the error carries the inner
message.  Otherwise the error carries the extracted `errorMessage`.  The
`fmt.Errorf` texts are reproduced verbatim. -/
def toResponseError (body : String) : String :=
  match unwrapStage1 body with
  | none => "request unsuccessful: " ++ body
  | some msg =>
    match unwrapStage2 msg with
    | none => "request unsuccessful: " ++ msg
    | some errorMessage => "request unsuccessful: " ++ errorMessage

/-- `json.Unmarshal` into the anonymous session-response struct of
`openSession`: `struct{ SessionID string; Value struct{ SessionID string } }`.
Returns `(top-level SessionID, nested Value.SessionID)`. -/
def goUnmarshalSessionResponse : Json → Option (String × String)
  | Json.null => some ("", "")
  | Json.obj fields =>
    fields.foldl
      (fun acc kv =>
        match acc with
        | none => none
        | some cur =>
          if keyMatches kv.1 ("SessionID") then
            match kv.2 with
            | Json.str s => some (s, cur.2)
            | Json.null => some cur
            | _ => none
          else if keyMatches kv.1 ("Value") then
            match goUnmarshalStringField ("SessionID") kv.2 with
            | none => none
            | some s => some (cur.1, s)
          else some cur)
      (some ("", ""))
  | _ => none

/-- Go `openSession` (session/connection.go), given the response body of
`POST {serviceURL}/session`: unmarshal, take the top-level `SessionID` if
non-empty, otherwise the GeckoDriver fallback `Value.SessionID` if non-empty,
otherwise fail.  An unmarshal failure surfaces the standard library's decode
error, modelled by a fixed text the claims do not depend on. -/
def openSession (body : String) : Except String String :=
  match jsonParse body with
  | none => .error ("json unmarshal error")
  | some j =>
    match goUnmarshalSessionResponse j with
    | none => .error ("json unmarshal error")
    | some ids =>
      if ids.1 ≠ "" then .ok ids.1
      else if ids.2 ≠ "" then .ok ids.2
      else .error ("failed to retrieve a session ID")

/-- Go `newConnection` (session/connection.go), reduced to the data the claims
concern: open the session from the response body and scope the connection's
`sessionURL` to `serviceURL + "/session/" + sessionID`. -/
def newConnection (serviceURL : String) (body : String) : Except String String :=
  match openSession body with
  | .error e => .error e
  | .ok sessionID => .ok (serviceURL ++ "/session/" ++ sessionID)

/-! ## Driver process supervisor (service/service.go, service/build.go)

`Start`/`Stop` interact with the operating system (port allocation,
text/template expansion, process spawning, signalling); those effects are
oracles collected in `ServiceEnv`, and the two operations are modelled as
functions from the pre-state to the returned error and the post-state,
tracking whether a spawn was ever attempted. -/

/-- Go `addressInfo`. -/
structure addressInfo where
  Address : String
  Host : String
  Port : String
deriving DecidableEq, Repr

/-- A Go error value: either a leaf message or an `fmt.Errorf("...: %w", err)`
wrap of a cause. -/
inductive GoError where
  | mk (msg : String)
  | wrap (msg : String) (cause : GoError)
deriving DecidableEq, Repr

/-- The root cause of a Go error (what `errors.Is` ultimately compares). -/
def GoError.root : GoError → String
  | .mk m => m
  | .wrap _ e => e.root

/-- The `Error()` text of a wrapped Go error: `"outer: inner"`. -/
def GoError.text : GoError → String
  | .mk m => m
  | .wrap m e => m ++ ": " ++ e.text

/-- The environment a `Start`/`Stop` runs in: the outcomes the operating
system and the standard library hand back. -/
structure ServiceEnv where
  freeAddress : Except String addressInfo
  template : String → addressInfo → Except String String
  stdoutPipe : Except String Unit
  startProcess : List String → Except String Nat
  signalProcess : Nat → Except String Unit
  killProcess : Nat → Except String Unit
  goos : String

/-- Go `Service`: templates, the recorded base URL, and the process handle
(`command`), which is non-nil exactly when a process has been started and not
yet stopped. -/
structure Service where
  urlT : String
  commandT : List String
  baseURL : String
  command : Option Nat
deriving DecidableEq, Repr

/-- Go `Service.URL`. -/
def Service.URL (s : Service) : String :=
  s.baseURL

/-- Go `buildURL` (service/build.go): template expansion of the URL. -/
def buildURL (env : ServiceEnv) (urlT : String) (address : addressInfo) :
    Except String String :=
  env.template urlT address

/-- Go `buildCommand` (service/build.go): an empty command template is the
`"empty command"` error; otherwise every argument is template-expanded. -/
def buildCommand (env : ServiceEnv) (commandT : List String) (address : addressInfo) :
    Except GoError (List String) :=
  if commandT = [] then .error (GoError.mk ("empty command"))
  else
    match commandT.mapM (fun arg => env.template arg address) with
    | .error e => .error (GoError.mk e)
    | .ok command => .ok command

/-- What a `Start` run produces: the returned error (if any), the post-state,
and whether `command.Start()` was ever invoked. -/
structure StartOutcome where
  result : Except GoError Unit
  state : Service
  spawnAttempted : Bool
deriving Repr

/-- Go `Service.Start`: fail fast when already running; allocate a port;
template the URL and record it in `baseURL`; template the command (failing on
an empty template); optionally attach the debug stdout pipe; spawn; record the
handle.  Error wrapping texts follow the source. -/
def Service.Start (env : ServiceEnv) (debug : Bool) (s : Service) : StartOutcome :=
  if s.command.isSome then
    { result := .error (GoError.mk ("already running")), state := s, spawnAttempted := false }
  else
    match env.freeAddress with
    | .error e =>
      { result := .error (GoError.wrap ("failed to locate a free port") (GoError.mk e)),
        state := s, spawnAttempted := false }
    | .ok address =>
      match buildURL env s.urlT address with
      | .error e =>
        { result := .error (GoError.wrap ("failed to parse URL") (GoError.mk e)),
          state := s, spawnAttempted := false }
      | .ok url =>
        let s1 : Service := { s with baseURL := url }
        match buildCommand env s.commandT address with
        | .error e =>
          { result := .error (GoError.wrap ("failed to parse command") e),
            state := s1, spawnAttempted := false }
        | .ok argv =>
          match (if debug then env.stdoutPipe else .ok ()) with
          | .error e =>
            { result := .error (GoError.mk e), state := s1, spawnAttempted := false }
          | .ok _ =>
            match env.startProcess argv with
            | .error e =>
              { result := .error (GoError.wrap ("failed to run command") (GoError.mk e)),
                state := s1, spawnAttempted := true }
            | .ok handle =>
              { result := .ok (), state := { s1 with command := some handle },
                spawnAttempted := true }

/-- What a `Stop` run produces. -/
structure StopOutcome where
  result : Except GoError Unit
  state : Service
deriving Repr

/-- Go `Service.Stop`: fail when already stopped; otherwise terminate the
process (kill on Windows, SIGTERM elsewhere), and on success clear the
recorded process handle and base URL. -/
def Service.Stop (env : ServiceEnv) (s : Service) : StopOutcome :=
  match s.command with
  | none => { result := .error (GoError.mk ("already stopped")), state := s }
  | some handle =>
    match (if env.goos = "windows" then env.killProcess handle else env.signalProcess handle) with
    | .error e =>
      { result := .error (GoError.wrap ("failed to stop command") (GoError.mk e)), state := s }
    | .ok _ =>
      { result := .ok (), state := { s with command := none, baseURL := "" } }

/-- A freshly appended selector: kind and value with zero flags (the Go
composite literal `selector{Type: ..., Value: ...}`). -/
def plainSel (t : selectorType) (v : String) : selector :=
  { Ty := t, Value := v, Index := 0, Indexed := false, Single := false }

/-! ## Theorems -/

/-- C8: resolving a selection whose selector chain is empty always returns the
"empty selection" error — it never succeeds with an empty result and performs
no remote call (the recorded call list is empty). -/
theorem empty_selection_is_error (w : World) :
    getElements w [] = (.error ("empty selection"), []) :=
  rfl

/-- C3: appending a CSS selector to a chain whose last selector is CSS and
neither single nor indexed merges into the last selector (same chain length,
last value joined by one space); in every other case — empty chain, non-CSS
last selector, single/indexed last selector, or a non-CSS append — the chain
grows by exactly one selector and never merges. -/
theorem append_merge_law :
    (∀ (ss : selectors) (last : selector) (v : String),
      ss.getLast? = some last → last.Ty = selectorType.cssType →
      last.Single = false → last.Indexed = false →
        ss.Append selectorType.cssType v
          = ss.dropLast ++ [plainSel selectorType.cssType (last.Value ++ " " ++ v)]
        ∧ (ss.Append selectorType.cssType v).length = ss.length)
    ∧ (∀ (ss : selectors) (t : selectorType) (v : String),
        (ss = [] ∨ t ≠ selectorType.cssType ∨
          ∀ last, ss.getLast? = some last →
            last.Ty ≠ selectorType.cssType ∨ last.Single = true ∨ last.Indexed = true) →
        ss.Append t v = ss ++ [plainSel t v]) := by
  constructor
  · intro ss last v hlast hty hsingle hindexed
    have hmerge : ss.canMergeType selectorType.cssType = true := by
      simp [selectors.canMergeType, hlast, hty, hsingle, hindexed]
    have hlen : 0 < ss.length := by
      cases ss with
      | nil => simp at hlast
      | cons a as => simp
    refine ⟨?_, ?_⟩
    · simp [selectors.Append, hmerge, hlast, plainSel]
    · simp [selectors.Append, hmerge, hlast]
      omega
  · intro ss t v h
    have hmerge : ss.canMergeType t = false := by
      cases hss : ss.getLast? with
      | none => simp [selectors.canMergeType, hss]
      | some last =>
        rcases h with h | h | h
        · rw [h] at hss; simp at hss
        · simp [selectors.canMergeType, hss, h]
        · rcases h last hss with h2 | h2 | h2 <;>
            simp [selectors.canMergeType, hss, h2]
    simp [selectors.Append, hmerge, plainSel]

def chainTable : selectors :=
  [plainSel selectorType.cssType ("table")]

/-- Witness for C3: merging `Find("table")` with a CSS `"tr"` yields the
compound `"table tr"`; appending an XPath selector instead grows the chain. -/
theorem append_merge_law_witness :
    chainTable.Append selectorType.cssType ("tr")
      = [plainSel selectorType.cssType ("table tr")]
    ∧ chainTable.Append selectorType.xPathType ("//a")
      = chainTable ++ [plainSel selectorType.xPathType ("//a")] := by
  constructor
  · have h := (append_merge_law.1 chainTable (plainSel selectorType.cssType ("table"))
      ("tr") rfl rfl rfl rfl).1
    simpa [chainTable] using h
  · exact append_merge_law.2 chainTable selectorType.xPathType ("//a")
      (Or.inr (Or.inl (by decide)))

/-- C5 counterexample: at the protocol value `x = -2.75` (exactly
representable in binary floating point, so `int(x + 0.5)` computes exactly as
over the rationals), the code returns `-2`, while round-half-up
`floor(x + 0.5) = floor(-2.25)` is `-3` — the conversion is not
`floor(x + 0.5)` for every value. -/
theorem round_negative_counterexample :
    goRound (-(11/4 : ℚ)) = -2
    ∧ ⌊(-(11/4 : ℚ)) + 1/2⌋ = -3
    ∧ goRound (-(11/4 : ℚ)) ≠ ⌊(-(11/4 : ℚ)) + 1/2⌋ := by
  have h1 : goRound (-(11/4 : ℚ)) = -2 := by
    have hneg : ¬ (0 : ℚ) ≤ -(11/4 : ℚ) + 1/2 := by norm_num
    rw [goRound, goTrunc, if_neg hneg, Int.ceil_eq_iff]; norm_num
  have h2 : ⌊(-(11/4 : ℚ)) + 1/2⌋ = -3 := by
    rw [Int.floor_eq_iff]; norm_num
  exact ⟨h1, h2, by rw [h1, h2]; decide⟩

/-- C5 amended: the integers returned for protocol float coordinates and
sizes equal the truncation toward zero of `x + 0.5`, which coincides with
round-half-up `floor(x + 0.5)` whenever `x ≥ -0.5` (in particular for all
non-negative coordinates and sizes), but not below. -/
theorem round_half_up_amended (x y : ℚ) (hx : -(1/2 : ℚ) ≤ x) (hy : -(1/2 : ℚ) ≤ y) :
    GetLocation x y = (⌊x + 1/2⌋, ⌊y + 1/2⌋)
    ∧ GetSize x y = (⌊x + 1/2⌋, ⌊y + 1/2⌋) := by
  have h : ∀ z : ℚ, -(1/2 : ℚ) ≤ z → goRound z = ⌊z + 1/2⌋ := by
    intro z hz
    have hpos : (0 : ℚ) ≤ z + 1/2 := by linarith
    rw [goRound, goTrunc, if_pos hpos]
  exact ⟨by simp [GetLocation, h x hx, h y hy], by simp [GetSize, h x hx, h y hy]⟩

/-- Witness for C5 (amended): at `(2.3, -0.25)` the location rounds to
`(2, 0)` and at `(3.5, 2.5)` the size rounds half up to `(4, 3)`. -/
theorem round_half_up_amended_witness :
    GetLocation (23/10) (-(1/4)) = (2, 0) ∧ GetSize (7/2) (5/2) = (4, 3) := by
  have h1 := round_half_up_amended (23/10) (-(1/4)) (by norm_num) (by norm_num)
  have h2 := round_half_up_amended (7/2) (5/2) (by norm_num) (by norm_num)
  refine ⟨?_, ?_⟩
  · rw [h1.1]
    norm_num
  · rw [h2.2]
    norm_num

/-- C9: a selector marked indexed with a negative index falls through both
indexed branches of `retrieveElements` (neither `index > 0` nor `index == 0`
holds): no bounds check runs, no index error is raised, and the step behaves
exactly like the same selector with no marks at all, returning every match of
the many-element find. -/
theorem negative_index_resolves_unconstrained (w : World) (sel : selector)
    (hS : sel.Single = false) (_hI : sel.Indexed = true) (hneg : sel.Index < 0) :
    retrieveElements w sel
      = (w.findAll none sel.SessionSelector,
         { scope := none, sel := sel.SessionSelector, single := false })
    ∧ retrieveElements w sel
      = retrieveElements w { sel with Single := false, Indexed := false, Index := 0 } := by
  have hno1 : ¬ (sel.Indexed = true ∧ 0 < sel.Index) := by
    rintro ⟨-, h⟩; omega
  have hno2 : ¬ (sel.Indexed = true ∧ sel.Index = 0) := by
    rintro ⟨-, h⟩; omega
  constructor
  · simp [retrieveElements, hS, hno1, hno2]
  · simp [retrieveElements, hS, hno1, hno2, selector.SessionSelector,
      selector.selectorStrategy, selector.queryValue]

def selTdNeg : selector :=
  { Ty := selectorType.cssType, Value := "td", Index := -1, Indexed := true, Single := false }

def wPair : World :=
  { findAll := fun scope q =>
      if scope = none ∧ q = selTdNeg.SessionSelector then .ok (["d1", "d2"])
      else .error ("unexpected find"),
    findOne := fun _ _ => .error ("unexpected single find") }

/-- Witness for C9: `At(-1)` on a CSS `td` selector resolves to both matches,
exactly as the unmarked selector does. -/
theorem negative_index_resolves_unconstrained_witness :
    retrieveElements wPair selTdNeg
      = (.ok (["d1", "d2"]),
         { scope := none, sel := selTdNeg.SessionSelector, single := false })
    ∧ retrieveElements wPair selTdNeg
      = retrieveElements wPair { selTdNeg with Single := false, Indexed := false, Index := 0 } := by
  have h := negative_index_resolves_unconstrained wPair selTdNeg rfl rfl (by decide)
  refine ⟨?_, h.2⟩
  rw [h.1]
  simp [wPair]

/-- C2: one fan-out step obeys the per-selector cardinality policy.  A
`single` selector demands exactly one match from the many-element find:
zero matches is the "element not found" error, more than one the "ambiguous
find" error, exactly one succeeds.  An `indexed` selector with index `0` uses
the direct single-result find (the recorded call has `single = true`, i.e. the
full list is not fetched).  An `indexed` selector with a positive index
fetches all matches and fails with "element index out of range" unless the
index is below the length, otherwise yielding the element at that index.  A
selector with neither mark yields every match unconstrained. -/
theorem retrieve_cardinality_policy (w : World) (sel : selector) :
    ((sel.Single = true →
      ((w.findAll none sel.SessionSelector = .ok [] →
          (retrieveElements w sel).1 = .error ("element not found"))
       ∧ (∀ es, w.findAll none sel.SessionSelector = .ok es → 1 < es.length →
          (retrieveElements w sel).1 = .error ("ambiguous find"))
       ∧ (∀ e, w.findAll none sel.SessionSelector = .ok [e] →
          (retrieveElements w sel).1 = .ok [e])))
    ∧ (sel.Single = false → sel.Indexed = true → sel.Index = 0 →
        ((retrieveElements w sel).2.single = true
         ∧ (∀ e, w.findOne none sel.SessionSelector = .ok e →
             (retrieveElements w sel).1 = .ok [e])))
    ∧ (sel.Single = false → sel.Indexed = true → 0 < sel.Index →
        ∀ es, w.findAll none sel.SessionSelector = .ok es →
          (((es.length : Int) ≤ sel.Index →
              (retrieveElements w sel).1 = .error ("element index out of range"))
           ∧ (sel.Index < (es.length : Int) →
              (retrieveElements w sel).1 = .ok [es.getD sel.Index.toNat ""])))
    ∧ (sel.Single = false → sel.Indexed = false →
        (retrieveElements w sel).1 = w.findAll none sel.SessionSelector)) := by
  refine ⟨?_, ?_, ?_, ?_⟩
  · intro hS
    refine ⟨?_, ?_, ?_⟩
    · intro hfind
      simp [retrieveElements, hS, hfind]
    · intro es hfind hlen
      have hne : es.length ≠ 0 := by omega
      simp [retrieveElements, hS, hfind, hne, hlen]
    · intro e hfind
      simp [retrieveElements, hS, hfind]
  · intro hS hI h0
    have hno1 : ¬ (sel.Indexed = true ∧ 0 < sel.Index) := by
      rintro ⟨-, h⟩; omega
    refine ⟨?_, ?_⟩
    · simp [retrieveElements, hS, hno1, hI, h0]
    · intro e hfind
      simp [retrieveElements, hS, hno1, hI, h0, hfind]
  · intro hS hI hpos es hfind
    refine ⟨?_, ?_⟩
    · intro hge
      simp [retrieveElements, hS, hI, hpos, hfind, hge]
    · intro hlt
      have hnot : ¬ ((es.length : Int) ≤ sel.Index) := by omega
      simp [retrieveElements, hS, hI, hpos, hfind, hnot]
  · intro hS hI
    have hno1 : ¬ (sel.Indexed = true ∧ 0 < sel.Index) := by
      rintro ⟨h, -⟩; rw [h] at hI; cases hI
    have hno2 : ¬ (sel.Indexed = true ∧ sel.Index = 0) := by
      rintro ⟨h, -⟩; rw [h] at hI; cases hI
    simp [retrieveElements, hS, hno1, hno2]

def selSingleA : selector :=
  { Ty := selectorType.cssType, Value := "a", Index := 0, Indexed := false, Single := true }

def selSingleB : selector :=
  { Ty := selectorType.cssType, Value := "b", Index := 0, Indexed := false, Single := true }

def selSingleC : selector :=
  { Ty := selectorType.cssType, Value := "c", Index := 0, Indexed := false, Single := true }

def selIdx0 : selector :=
  { Ty := selectorType.cssType, Value := "d", Index := 0, Indexed := true, Single := false }

def selIdx2 : selector :=
  { Ty := selectorType.cssType, Value := "f", Index := 2, Indexed := true, Single := false }

def selIdx5 : selector :=
  { Ty := selectorType.cssType, Value := "f", Index := 5, Indexed := true, Single := false }

def wPolicy : World :=
  { findAll := fun scope q =>
      if scope = none ∧ q = selSingleA.SessionSelector then .ok (["x", "y"])
      else if scope = none ∧ q = selSingleB.SessionSelector then .ok ([])
      else if scope = none ∧ q = selSingleC.SessionSelector then .ok (["z"])
      else if scope = none ∧ q = selIdx2.SessionSelector then .ok (["p", "q", "r"])
      else .error ("unexpected find"),
    findOne := fun scope q =>
      if scope = none ∧ q = selIdx0.SessionSelector then .ok ("e0")
      else .error ("unexpected single find") }

/-- Witness for C2: against a concrete page, a single-marked selector with two
matches fails "ambiguous find", with none "element not found", with one
succeeds; index 0 uses the direct single find; index 2 of three matches picks
the third; index 5 of three is "element index out of range". -/
theorem retrieve_cardinality_policy_witness :
    (retrieveElements wPolicy selSingleA).1 = .error ("ambiguous find")
    ∧ (retrieveElements wPolicy selSingleB).1 = .error ("element not found")
    ∧ (retrieveElements wPolicy selSingleC).1 = .ok (["z"])
    ∧ (retrieveElements wPolicy selIdx0).1 = .ok (["e0"])
    ∧ (retrieveElements wPolicy selIdx0).2.single = true
    ∧ (retrieveElements wPolicy selIdx2).1 = .ok (["r"])
    ∧ (retrieveElements wPolicy selIdx5).1 = .error ("element index out of range") := by
  refine ⟨?_, ?_, ?_, ?_, ?_, ?_, ?_⟩
  · exact ((retrieve_cardinality_policy wPolicy selSingleA).1 rfl).2.1 ["x", "y"] rfl
      (by decide)
  · exact ((retrieve_cardinality_policy wPolicy selSingleB).1 rfl).1 rfl
  · exact ((retrieve_cardinality_policy wPolicy selSingleC).1 rfl).2.2 ("z") rfl
  · exact ((retrieve_cardinality_policy wPolicy selIdx0).2.1 rfl rfl rfl).2 ("e0") rfl
  · exact ((retrieve_cardinality_policy wPolicy selIdx0).2.1 rfl rfl rfl).1
  · have h := ((retrieve_cardinality_policy wPolicy selIdx2).2.2.1 rfl rfl (by decide)
      ["p", "q", "r"] rfl).2 (by decide)
    simpa using h
  · exact ((retrieve_cardinality_policy wPolicy selIdx5).2.2.1 rfl rfl (by decide)
      ["p", "q", "r"] rfl).1 (by decide)

def selTr : selector :=
  { Ty := selectorType.xPathType, Value := "//tr", Index := 0, Indexed := false, Single := false }

def selTd : selector :=
  { Ty := selectorType.xPathType, Value := "//td", Index := 0, Indexed := false, Single := false }

/-- A page with two rows `t1, t2`; the cells under `t1` are `a, b`, the cell
under `t2` is `c`, and a session-global cell find sees all three. -/
def wRows : World :=
  { findAll := fun scope q =>
      if scope = none ∧ q = selTr.SessionSelector then .ok (["t1", "t2"])
      else if scope = none ∧ q = selTd.SessionSelector then .ok (["a", "b", "c"])
      else if scope = some ("t1") ∧ q = selTd.SessionSelector then .ok (["a", "b"])
      else if scope = some ("t2") ∧ q = selTd.SessionSelector then .ok (["c"])
      else .error ("unexpected find"),
    findOne := fun _ _ => .error ("unexpected single find") }

/-- C1: the fan-out step of `Selectable.getElements` passes `element.Session`
— the session itself — to `retrieveElements`, so every chained find is issued
session-globally instead of element-relatively.  On the two-selector chain
`AllByXPath("//tr").AllByXPath("//td")` over `wRows` the code returns the
session-global cell list once per row (six handles, every cell duplicated),
every recorded remote call carries the session scope (`none`), and the result
differs from the element-scoped resolution the spec describes
(`getElementsSpec`), which returns each cell under each row exactly once. -/
theorem chained_fanout_ignores_element_scope :
    (getElements wRows [selTr, selTd]).1 = .ok (["a", "b", "c", "a", "b", "c"])
    ∧ getElementsSpec wRows [selTr, selTd] = .ok (["a", "b", "c"])
    ∧ (getElements wRows [selTr, selTd]).1 ≠ getElementsSpec wRows [selTr, selTd]
    ∧ (getElements wRows [selTr, selTd]).2.map RemoteCall.scope = [none, none, none] := by
  refine ⟨rfl, rfl, ?_, rfl⟩
  intro h
  rw [show (getElements wRows [selTr, selTd]).1 = .ok (["a", "b", "c", "a", "b", "c"]) from rfl,
    show getElementsSpec wRows [selTr, selTd] = .ok (["a", "b", "c"]) from rfl] at h
  simp at h

/-- C6: under the invariant that the recorded process handle (`command`) is
non-nil exactly when the service is running, the lifecycle behaves as claimed:
`Start` on a running service fails "already running" without touching state or
spawning; `Stop` on a stopped service fails "already stopped"; `Start` with an
empty command-argument template fails with the "empty command" error (wrapped
as "failed to parse command: empty command") without ever attempting a spawn
and leaves the service stopped; a successful `Stop` clears the recorded
process handle and base URL. -/
theorem service_lifecycle (env : ServiceEnv) (debug : Bool) (s : Service) :
    ((∀ h, s.command = some h →
        Service.Start env debug s
          = { result := .error (GoError.mk ("already running")), state := s,
              spawnAttempted := false })
    ∧ (s.command = none →
        Service.Stop env s
          = { result := .error (GoError.mk ("already stopped")), state := s })
    ∧ (s.command = none → s.commandT = [] →
        ∀ address url, env.freeAddress = .ok address → env.template s.urlT address = .ok url →
          ((Service.Start env debug s).result
              = .error (GoError.wrap ("failed to parse command") (GoError.mk ("empty command")))
           ∧ (Service.Start env debug s).result.toOption.isNone = true
           ∧ (GoError.wrap ("failed to parse command") (GoError.mk ("empty command"))).root
              = "empty command"
           ∧ (GoError.wrap ("failed to parse command") (GoError.mk ("empty command"))).text
              = "failed to parse command: empty command"
           ∧ (Service.Start env debug s).spawnAttempted = false
           ∧ (Service.Start env debug s).state.command = none))
    ∧ (∀ h, s.command = some h →
        (if env.goos = "windows" then env.killProcess h else env.signalProcess h) = .ok () →
          Service.Stop env s
            = { result := .ok (), state := { s with command := none, baseURL := "" } })) := by
  refine ⟨?_, ?_, ?_, ?_⟩
  · intro h hrun
    simp [Service.Start, hrun]
  · intro hstop
    simp [Service.Stop, hstop]
  · intro hstop hempty address url haddr hurl
    have hstart : Service.Start env debug s
        = { result := .error (GoError.wrap ("failed to parse command")
              (GoError.mk ("empty command"))),
            state := { s with baseURL := url }, spawnAttempted := false } := by
      simp [Service.Start, hstop, haddr, buildURL, hurl, buildCommand, hempty]
    rw [hstart]
    refine ⟨rfl, rfl, rfl, rfl, rfl, ?_⟩
    simpa using hstop
  · intro h hrun hterm
    simp [Service.Stop, hrun, hterm]

def addr0 : addressInfo :=
  { Address := "127.0.0.1:9515", Host := "127.0.0.1", Port := "9515" }

def envOk : ServiceEnv :=
  { freeAddress := .ok addr0,
    template := fun t _ => .ok t,
    stdoutPipe := .ok (),
    startProcess := fun _ => .ok 7,
    signalProcess := fun _ => .ok (),
    killProcess := fun _ => .ok (),
    goos := "linux" }

def svcRunning : Service :=
  { urlT := "http://localhost", commandT := ["chromedriver"], baseURL := "http://localhost",
    command := some 7 }

def svcEmptyCmd : Service :=
  { urlT := "http://localhost", commandT := [], baseURL := "", command := none }

/-- Witness for C6: on a concrete environment, a running service rejects
`Start` and a stopped one rejects `Stop`; a stopped service with an empty
command template fails `Start` with "failed to parse command: empty command"
without spawning; a successful `Stop` clears handle and base URL. -/
theorem service_lifecycle_witness :
    Service.Start envOk false svcRunning
      = { result := .error (GoError.mk ("already running")), state := svcRunning,
          spawnAttempted := false }
    ∧ Service.Stop envOk svcEmptyCmd
      = { result := .error (GoError.mk ("already stopped")), state := svcEmptyCmd }
    ∧ (Service.Start envOk false svcEmptyCmd).result
      = .error (GoError.wrap ("failed to parse command") (GoError.mk ("empty command")))
    ∧ (Service.Start envOk false svcEmptyCmd).spawnAttempted = false
    ∧ (Service.Start envOk false svcEmptyCmd).state.command = none
    ∧ Service.Stop envOk svcRunning
      = { result := .ok (), state := { svcRunning with command := none, baseURL := "" } } := by
  have h := service_lifecycle envOk false svcRunning
  have h2 := service_lifecycle envOk false svcEmptyCmd
  have h3 := h2.2.2.1 rfl rfl addr0 ("http://localhost") rfl rfl
  exact ⟨h.1 7 rfl, h2.2.1 rfl, h3.1, h3.2.2.2.2.1, h3.2.2.2.2.2, h.2.2.2 7 rfl rfl⟩

/-- C10: `Start` is not atomic on failure with respect to the base URL.  For a
stopped service, once port allocation and URL templating succeed, any failing
`Start` (empty or unparseable command template, debug-pipe failure, or spawn
failure) has already overwritten `baseURL` with the newly templated URL while
the process handle stays nil: the service remains stopped (a subsequent `Stop`
fails "already stopped"), yet `URL()` returns the new base URL rather than its
pre-`Start` value. -/
theorem start_failure_overwrites_base_url (env : ServiceEnv) (debug : Bool) (s : Service)
    (hstopped : s.command = none) (address : addressInfo) (url : String)
    (haddr : env.freeAddress = .ok address)
    (hurl : env.template s.urlT address = .ok url)
    (hfail : (Service.Start env debug s).result ≠ .ok ()) :
    (Service.Start env debug s).state.baseURL = url
    ∧ (Service.Start env debug s).state.command = none
    ∧ Service.URL (Service.Start env debug s).state = url
    ∧ (Service.Stop env (Service.Start env debug s).state).result
        = .error (GoError.mk ("already stopped"))
    ∧ (url ≠ s.baseURL →
        Service.URL (Service.Start env debug s).state ≠ Service.URL s) := by
  have hstate : (Service.Start env debug s).state.baseURL = url
      ∧ (Service.Start env debug s).state.command = none := by
    cases hbc : buildCommand env s.commandT address with
    | error e =>
      simp [Service.Start, hstopped, haddr, buildURL, hurl, hbc]
    | ok argv =>
      cases hpipe : (if debug = true then env.stdoutPipe else Except.ok ()) with
      | error e =>
        simp [Service.Start, hstopped, haddr, buildURL, hurl, hbc, hpipe]
      | ok u =>
        cases hsp : env.startProcess argv with
        | error e =>
          simp [Service.Start, hstopped, haddr, buildURL, hurl, hbc, hpipe, hsp]
        | ok handle =>
          exact absurd
            (by simp [Service.Start, hstopped, haddr, buildURL, hurl, hbc, hpipe, hsp])
            hfail
  refine ⟨hstate.1, hstate.2, hstate.1, ?_, ?_⟩
  · simp [Service.Stop, hstate.2]
  · intro hne h
    rw [Service.URL, hstate.1] at h
    exact hne h

/-- Witness for C10: starting the stopped empty-command service fails, yet its
recorded base URL afterwards is the freshly templated URL, not the pre-`Start`
value (empty), and `Stop` still reports "already stopped". -/
theorem start_failure_overwrites_base_url_witness :
    (Service.Start envOk false svcEmptyCmd).state.baseURL = "http://localhost"
    ∧ (Service.Start envOk false svcEmptyCmd).state.command = none
    ∧ (Service.Stop envOk (Service.Start envOk false svcEmptyCmd).state).result
        = .error (GoError.mk ("already stopped"))
    ∧ Service.URL (Service.Start envOk false svcEmptyCmd).state ≠ Service.URL svcEmptyCmd := by
  have hres : (Service.Start envOk false svcEmptyCmd).result
      = .error (GoError.wrap ("failed to parse command") (GoError.mk ("empty command"))) := rfl
  have h := start_failure_overwrites_base_url envOk false svcEmptyCmd rfl addr0
    ("http://localhost") rfl rfl (by rw [hres]; intro hcontra; cases hcontra)
  exact ⟨h.1, h.2.1, h.2.2.2.1, h.2.2.2.2 (by decide)⟩

def oopsBody : String := "\x7b\"value\":\x7b\"message\":\"oops\"\x7d\x7d"

def boomBody : String :=
  "\x7b\"value\":\x7b\"message\":\"\x7b\\\"errorMessage\\\":\\\"boom\\\"\x7d\"\x7d\x7d"

def boomInner : String := "\x7b\"errorMessage\":\"boom\"\x7d"

/-- C4 counterexample: on the non-2xx body `{"value":{"message":"oops"}}`,
the first unwrap stage succeeds (inner message `"oops"`) and the second fails
(`"oops"` is not JSON) — the code surfaces the inner message, not the raw
response body verbatim as the claim states. -/
theorem error_unwrap_counterexample :
    toResponseError oopsBody = "request unsuccessful: oops"
    ∧ toResponseError oopsBody ≠ "request unsuccessful: " ++ oopsBody := by
  exact ⟨by decide, by decide⟩

/-- C4 amended: a non-2xx error is produced by the two-stage unwrap — parse
`{"value":{"message": <string>}}`, then parse the inner message as
`{"errorMessage": <string>}` and surface that; if the first stage fails the
error surfaces the raw response body verbatim, while if only the second stage
fails it surfaces the inner message string verbatim.  Concretely, the body
`{"value":{"message":"{\"errorMessage\":\"boom\"}"}}` decodes to
"request unsuccessful: boom" and an unparseable body is surfaced raw. -/
theorem error_unwrap_two_stage (body : String) :
    ((unwrapStage1 body = none →
        toResponseError body = "request unsuccessful: " ++ body)
    ∧ (∀ msg, unwrapStage1 body = some msg → unwrapStage2 msg = none →
        toResponseError body = "request unsuccessful: " ++ msg)
    ∧ (∀ msg errorMessage, unwrapStage1 body = some msg →
        unwrapStage2 msg = some errorMessage →
        toResponseError body = "request unsuccessful: " ++ errorMessage)
    ∧ toResponseError boomBody = "request unsuccessful: boom") := by
  refine ⟨?_, ?_, ?_, by decide⟩
  · intro h1
    simp [toResponseError, h1]
  · intro msg h1 h2
    simp [toResponseError, h1, h2]
  · intro msg errorMessage h1 h2
    simp [toResponseError, h1, h2]

/-- Witness for C4 (amended): the three stage outcomes at concrete bodies —
raw fallback for a non-JSON body, inner-message fallback for `oopsBody`, and
the extracted "boom" for `boomBody`. -/
theorem error_unwrap_two_stage_witness :
    toResponseError ("garbage !") = "request unsuccessful: garbage !"
    ∧ toResponseError oopsBody = "request unsuccessful: " ++ "oops"
    ∧ toResponseError boomBody = "request unsuccessful: " ++ "boom" := by
  refine ⟨?_, ?_, ?_⟩
  · exact (error_unwrap_two_stage ("garbage !")).1 (by decide)
  · exact (error_unwrap_two_stage oopsBody).2.1 ("oops") (by decide) (by decide)
  · exact (error_unwrap_two_stage boomBody).2.2.1 boomInner ("boom") (by decide) (by decide)

/-- C7: session bootstrap parses the `POST /session` response body, takes the
top-level `SessionID` field first and falls back to the nested
`Value.SessionID` only when the top-level one is empty; when both are empty it
fails with "failed to retrieve a session ID", and when either is non-empty the
connection is scoped to `{serviceURL}/session/{sessionID}`. -/
theorem session_bootstrap (serviceURL body : String) (j : Json) (ids : String × String)
    (hparse : jsonParse body = some j)
    (hun : goUnmarshalSessionResponse j = some ids) :
    ((ids.1 ≠ "" →
        openSession body = .ok ids.1
        ∧ newConnection serviceURL body = .ok (serviceURL ++ "/session/" ++ ids.1))
    ∧ (ids.1 = "" → ids.2 ≠ "" →
        openSession body = .ok ids.2
        ∧ newConnection serviceURL body = .ok (serviceURL ++ "/session/" ++ ids.2))
    ∧ (ids.1 = "" → ids.2 = "" →
        openSession body = .error ("failed to retrieve a session ID"))) := by
  refine ⟨?_, ?_, ?_⟩
  · intro h1
    have ho : openSession body = .ok ids.1 := by simp [openSession, hparse, hun, h1]
    exact ⟨ho, by simp [newConnection, ho]⟩
  · intro h1 h2
    have ho : openSession body = .ok ids.2 := by simp [openSession, hparse, hun, h1, h2]
    exact ⟨ho, by simp [newConnection, ho]⟩
  · intro h1 h2
    simp [openSession, hparse, hun, h1, h2]

def topBody : String := "\x7b\"sessionId\":\"abc123\"\x7d"

def nestedBody : String := "\x7b\"value\":\x7b\"sessionId\":\"xyz\"\x7d\x7d"

def emptyObjBody : String := "\x7b\x7d"

/-- Witness for C7: a top-level `sessionId` wins, the GeckoDriver nested form
is used as fallback, an empty object fails, and the session URL is scoped. -/
theorem session_bootstrap_witness :
    openSession topBody = .ok ("abc123")
    ∧ newConnection ("http://localhost:9515") topBody
        = .ok ("http://localhost:9515" ++ "/session/" ++ "abc123")
    ∧ openSession nestedBody = .ok ("xyz")
    ∧ newConnection ("http://localhost:9515") nestedBody
        = .ok ("http://localhost:9515" ++ "/session/" ++ "xyz")
    ∧ openSession emptyObjBody = .error ("failed to retrieve a session ID") := by
  have h1 := session_bootstrap ("http://localhost:9515") topBody
    (Json.obj [("sessionId", Json.str ("abc123"))]) (("abc123", "")) rfl rfl
  have h2 := session_bootstrap ("http://localhost:9515") nestedBody
    (Json.obj [("value", Json.obj [("sessionId", Json.str ("xyz"))])]) (("", "xyz"))
    rfl rfl
  have h3 := session_bootstrap ("http://localhost:9515") emptyObjBody
    (Json.obj []) (("", "")) rfl rfl
  have g1 := h1.1 (by decide)
  have g2 := h2.2.1 rfl (by decide)
  exact ⟨g1.1, g1.2, g2.1, g2.2, h3.2.2 rfl rfl⟩
